import Mathlib

/-!
Verification of the dreamina2api core against its design specification.

Each section embeds one part of the TypeScript source as Lean definitions
(JavaScript 32-bit unsigned arithmetic becomes `Nat` with explicit masking,
stateful loops become fuel-indexed step functions, thrown exceptions become
explicit outcome values) and proves or refutes the specified properties.
-/

set_option maxRecDepth 4000

namespace Dreamina

/-! ## Checksum utility (videos.ts `calculateCRC32`, lines 104-120)

JavaScript `>>>` on a value kept in unsigned 32-bit range is `Nat` division
by a power of two, `&`/`^` are `Nat.land`/`Nat.xor`, and both
`0 ^ (-1)` (initial value) and the final `(crc ^ (-1)) >>> 0` are XOR with
`0xFFFFFFFF` on the unsigned representative. -/

/-- One inner-loop step of the table construction (videos.ts line 109):
`crc = (crc & 1) ? (0xEDB88320 ^ (crc >>> 1)) : (crc >>> 1)`. -/
def crcBit (crc : Nat) : Nat :=
  if crc &&& 1 = 1 then 0xEDB88320 ^^^ (crc >>> 1) else crc >>> 1

/-- Entry `i` of the 256-entry `crcTable` (videos.ts lines 105-112): eight
iterations of `crcBit` starting from the byte value `i`. -/
def crcTableEntry (i : Nat) : Nat :=
  crcBit^[8] i

/-- One step of the fold over the input bytes (videos.ts line 117):
`crc = (crc >>> 8) ^ crcTable[(crc ^ bytes[i]) & 0xFF]`. -/
def crcByteStep (crc b : Nat) : Nat :=
  (crc >>> 8) ^^^ crcTableEntry ((crc ^^^ b) &&& 0xFF)

/-- The 32-bit CRC value computed by `calculateCRC32` before hex rendering:
initial value `0xFFFFFFFF` (`0 ^ (-1)` seen unsigned), table-driven fold,
final XOR with `0xFFFFFFFF` (`(crc ^ (-1)) >>> 0`). -/
def calculateCRC32Nat (bytes : List Nat) : Nat :=
  (bytes.foldl crcByteStep 0xFFFFFFFF) ^^^ 0xFFFFFFFF

/-- Lower-case hex digit, as produced by JavaScript `toString(16)`. -/
def hexDigitChar (n : Nat) : Char :=
  if n < 10 then Char.ofNat (48 + n) else Char.ofNat (87 + n)

/-- Hex digits of `n`, most significant first; `fuel` bounds the recursion. -/
def hexDigits : Nat → Nat → List Char
  | 0, _ => []
  | fuel + 1, n => if n = 0 then [] else hexDigits fuel (n / 16) ++ [hexDigitChar (n % 16)]

/-- JavaScript `n.toString(16)` for a natural number. -/
def natToHexString (n : Nat) : String :=
  if n = 0 then "0" else String.mk (hexDigits 40 n)

/-- JavaScript `s.padStart(8, "0")`. -/
def padStart8 (s : String) : String :=
  String.mk (List.replicate (8 - s.length) '0') ++ s

/-- The full `calculateCRC32` (videos.ts lines 104-120, identical copy in the
images controller): hex string of the CRC, left-padded to eight digits. -/
def calculateCRC32 (bytes : List Nat) : String :=
  padStart8 (natToHexString (calculateCRC32Nat bytes))

/-- Modelled from the spec: one bit of the standard reflected CRC32
recurrence with polynomial `0xEDB88320` (shift right; XOR the polynomial in
when the bit shifted out was set). -/
def crc32SpecBit (crc : Nat) : Nat :=
  if crc % 2 = 1 then (crc / 2) ^^^ 0xEDB88320 else crc / 2

/-- Modelled from the spec: one byte of the standard reflected CRC32 (the
byte is XORed into the low byte of the running value, then eight bit steps
are applied to the whole running value). -/
def crc32SpecByte (crc b : Nat) : Nat :=
  crc32SpecBit^[8] (crc ^^^ b)

/-- Modelled from the spec: the standard reflected CRC32 of a byte sequence,
with initial and final value inverted. -/
def crc32Spec (bytes : List Nat) : Nat :=
  (bytes.foldl crc32SpecByte 0xFFFFFFFF) ^^^ 0xFFFFFFFF

theorem crcBit_eq_specBit : crcBit = crc32SpecBit := by
  funext x
  simp only [crcBit, crc32SpecBit, Nat.and_one_is_mod, Nat.shiftRight_one]
  rcases Nat.mod_two_eq_zero_or_one x with h | h <;> simp [h, Nat.xor_comm]

theorem shiftRight_xor_distrib (x y n : Nat) :
    (x ^^^ y) >>> n = (x >>> n) ^^^ (y >>> n) := by
  apply Nat.eq_of_testBit_eq
  intro i
  simp [Nat.testBit_shiftRight, Nat.testBit_xor]

theorem mod_two_xor (x y : Nat) : (x ^^^ y) % 2 = (x % 2) ^^^ (y % 2) := by
  have h := Nat.and_xor_distrib_right (a := x) (b := y) (c := 1)
  simpa [Nat.and_one_is_mod] using h

/-- The CRC bit step is linear over XOR. -/
theorem crcBit_xor (x y : Nat) : crcBit (x ^^^ y) = crcBit x ^^^ crcBit y := by
  have hstep : ∀ z : Nat,
      crcBit z = (z >>> 1) ^^^ (if z % 2 = 1 then 0xEDB88320 else 0) := by
    intro z
    simp only [crcBit, Nat.and_one_is_mod]
    rcases Nat.mod_two_eq_zero_or_one z with h | h <;> simp [h, Nat.xor_comm]
  rw [hstep, hstep, hstep, shiftRight_xor_distrib, mod_two_xor]
  have hlc : ∀ a b c : Nat, a ^^^ (b ^^^ c) = b ^^^ (a ^^^ c) := fun a b c => by
    rw [← Nat.xor_assoc, Nat.xor_comm a b, Nat.xor_assoc]
  rcases Nat.mod_two_eq_zero_or_one x with hx | hx <;>
    rcases Nat.mod_two_eq_zero_or_one y with hy | hy <;>
      simp [hx, hy, Nat.xor_assoc, Nat.xor_comm, hlc]

/-- Iterated CRC bit steps are linear over XOR. -/
theorem crcBit_iterate_xor (k x y : Nat) :
    crcBit^[k] (x ^^^ y) = crcBit^[k] x ^^^ crcBit^[k] y := by
  induction k generalizing x y with
  | zero => rfl
  | succ k ih =>
    rw [Function.iterate_succ_apply, Function.iterate_succ_apply,
      Function.iterate_succ_apply, crcBit_xor, ih]

/-- A value shifted left by `k` passes unchanged through `k` CRC bit steps. -/
theorem crcBit_iterate_shiftLeft (k x : Nat) : crcBit^[k] (x <<< k) = x := by
  induction k generalizing x with
  | zero => simp
  | succ k ih =>
    have hpar : x <<< (k + 1) &&& 1 = 0 := by
      simp only [Nat.and_one_is_mod, Nat.shiftLeft_eq, Nat.pow_succ,
        ← Nat.mul_assoc, Nat.mul_mod_left]
    have hdiv : x <<< (k + 1) >>> 1 = x <<< k := by
      have hmul : x <<< (k + 1) = (x <<< k) * 2 := by
        simp [Nat.shiftLeft_eq, Nat.pow_succ, Nat.mul_assoc]
      rw [Nat.shiftRight_one, hmul]
      simp
    have hbit : crcBit (x <<< (k + 1)) = x <<< k := by
      rw [crcBit, hpar]
      simp [hdiv]
    rw [Function.iterate_succ_apply, hbit, ih]

theorem low_high_decomposition (z : Nat) :
    (z % 2 ^ 8) ^^^ ((z >>> 8) <<< 8) = z := by
  apply Nat.eq_of_testBit_eq
  intro i
  simp only [Nat.testBit_xor, Nat.testBit_shiftLeft, Nat.testBit_shiftRight,
    Nat.testBit_mod_two_pow]
  rcases Nat.lt_or_ge i 8 with h | h
  · simp [h, Nat.not_le.mpr h]
  · simp [h, Nat.not_lt.mpr h, Nat.add_sub_cancel' h]

theorem and_255_eq_mod (z : Nat) : z &&& 255 = z % 2 ^ 8 := by
  have h := Nat.and_pow_two_sub_one_eq_mod z 8
  norm_num at h
  simpa using h

/-- For byte-sized input, the table-driven byte step of the implementation
agrees with the bit-at-a-time byte step of the standard reflected CRC32. -/
theorem crcByteStep_eq_spec (crc b : Nat) (hb : b < 256) :
    crcByteStep crc b = crc32SpecByte crc b := by
  have hhigh : (crc ^^^ b) >>> 8 = crc >>> 8 := by
    rw [shiftRight_xor_distrib]
    have : b >>> 8 = 0 := by
      simp [Nat.shiftRight_eq_div_pow]
      omega
    simp [this]
  have hsplit := low_high_decomposition (crc ^^^ b)
  calc crcByteStep crc b
      = (crc ^^^ b) >>> 8 ^^^ crcBit^[8] ((crc ^^^ b) % 2 ^ 8) := by
        rw [crcByteStep, crcTableEntry, and_255_eq_mod, hhigh]
    _ = crcBit^[8] (((crc ^^^ b) >>> 8) <<< 8) ^^^ crcBit^[8] ((crc ^^^ b) % 2 ^ 8) := by
        rw [crcBit_iterate_shiftLeft]
    _ = crcBit^[8] ((crc ^^^ b) % 2 ^ 8 ^^^ ((crc ^^^ b) >>> 8) <<< 8) := by
        rw [crcBit_iterate_xor, Nat.xor_comm]
    _ = crcBit^[8] (crc ^^^ b) := by rw [hsplit]
    _ = crc32SpecByte crc b := by rw [crc32SpecByte, crcBit_eq_specBit]

theorem crc_fold_eq_spec (bytes : List Nat) (crc : Nat)
    (hb : ∀ b ∈ bytes, b < 256) :
    bytes.foldl crcByteStep crc = bytes.foldl crc32SpecByte crc := by
  induction bytes generalizing crc with
  | nil => rfl
  | cons b bs ih =>
    simp only [List.foldl_cons]
    rw [crcByteStep_eq_spec crc b (hb b (List.mem_cons_self b bs))]
    exact ih _ fun x hx => hb x (List.mem_cons_of_mem b hx)

/-- Claim C7: `calculateCRC32` computes the standard reflected CRC32
(polynomial `0xEDB88320`, initial and final value inverted, table-driven
right shift): on byte-sized input it agrees with the bit-at-a-time reference
`crc32Spec`, and its hex rendering matches the standard reference values for
the empty input and for the ASCII string "123456789" (check value
`cbf43926`). Determinism is inherent: it is a pure function of the bytes. -/
theorem C7_calculateCRC32_standard (bytes : List Nat)
    (hb : ∀ b ∈ bytes, b < 256) :
    calculateCRC32Nat bytes = crc32Spec bytes ∧
    calculateCRC32 [] = "00000000" ∧
    calculateCRC32 ((String.toList "123456789").map Char.toNat) = "cbf43926" := by
  refine ⟨?_, by decide, by decide⟩
  rw [calculateCRC32Nat, crc32Spec, crc_fold_eq_spec bytes _ hb]

/-- Witness for C7 at the concrete ASCII input "123456789". -/
theorem C7_calculateCRC32_standard_witness :
    calculateCRC32Nat ((String.toList "123456789").map Char.toNat) =
      crc32Spec ((String.toList "123456789").map Char.toNat) ∧
    calculateCRC32 [] = "00000000" ∧
    calculateCRC32 ((String.toList "123456789").map Char.toNat) = "cbf43926" :=
  C7_calculateCRC32_standard ((String.toList "123456789").map Char.toNat)
    (by decide)

/-! ## Aspect-ratio code (images controller, `getImageRatio`, part_000 lines 526-540)

The JavaScript computation is on floating-point doubles; the embedding uses
exact rationals, which realizes the intended real-number tolerance test the
sequence of `Math.abs(aspectRatio - r) < 0.1` comparisons expresses. -/

/-- Source transcription of `getImageRatio`: the if-chain over the eight
enumerated aspect ratios, in source order, defaulting to 1 (square). -/
def getImageRatio (width height : ℚ) : Nat :=
  let aspectRatio := width / height
  if |aspectRatio - 1| < 1/10 then 1
  else if |aspectRatio - 4/3| < 1/10 then 4
  else if |aspectRatio - 3/4| < 1/10 then 2
  else if |aspectRatio - 16/9| < 1/10 then 3
  else if |aspectRatio - 9/16| < 1/10 then 5
  else if |aspectRatio - 3/2| < 1/10 then 7
  else if |aspectRatio - 2/3| < 1/10 then 6
  else if |aspectRatio - 21/9| < 1/10 then 8
  else 1

/-- Modelled from the claim: the enumerated (ratio, code) table, in the
order the source tests them. -/
def imageRatioTable : List (ℚ × Nat) :=
  [(1, 1), (4/3, 4), (3/4, 2), (16/9, 3), (9/16, 5), (3/2, 7), (2/3, 6), (21/9, 8)]

/-- Modelled from the claim: the code of the first table entry within 1/10
of width/height, defaulting to 1. -/
def imageRatioSpec (width height : ℚ) : Nat :=
  ((imageRatioTable.find? fun p => |width / height - p.1| < 1/10).map Prod.snd).getD 1

/-- Claim C10: `getImageRatio` is total on positive dimensions, always
returns a code in 1..8, and returns the code of the first enumerated ratio
(1:1, 4:3, 3:4, 16:9, 9:16, 3:2, 2:3, 21:9, in that order) within 0.1 of
width/height, defaulting to 1 when none is. -/
theorem C10_getImageRatio_first_match (width height : ℚ)
    (hw : 0 < width) (hh : 0 < height) :
    getImageRatio width height = imageRatioSpec width height ∧
    getImageRatio width height ∈ [1, 2, 3, 4, 5, 6, 7, 8] := by
  constructor
  · unfold getImageRatio imageRatioSpec imageRatioTable
    simp only [List.find?]
    split_ifs <;> (simp only [one_div] at * <;> simp [*])
  · simp only [getImageRatio]
    split_ifs <;> simp

/-- Witness for C10 at the concrete input 1024 x 1024. -/
theorem C10_getImageRatio_first_match_witness :
    getImageRatio 1024 1024 = imageRatioSpec 1024 1024 ∧
    getImageRatio 1024 1024 ∈ [1, 2, 3, 4, 5, 6, 7, 8] :=
  C10_getImageRatio_first_match 1024 1024 (by norm_num) (by norm_num)

/-! ## Envelope result check (core.ts `checkResult`, lines 464-474) -/

/-- Subset of JavaScript values relevant to the `ret` field of the
`(ret, errmsg, data)` response envelope. -/
inductive JsRet where
  | vStr (s : String)
  | vNum (n : Int)
  | vNull
  | vUndef
deriving DecidableEq

/-- Whitespace trim on the character list (structural version of the trim
JavaScript `Number` applies to a string before parsing). -/
def jsTrim (s : String) : String :=
  String.mk (((s.toList.dropWhile Char.isWhitespace).reverse.dropWhile
    Char.isWhitespace).reverse)

/-- Value of a non-empty string of decimal digits; `none` when empty or a
non-digit appears. -/
def decDigitsVal (cs : List Char) : Option Nat :=
  if cs = [] then none
  else cs.foldl
    (fun acc? c => acc?.bind fun acc =>
      if c.isDigit then some (acc * 10 + (c.toNat - 48)) else none)
    (some 0)

/-- JavaScript `Number(s)` on a string, restricted to the integer literals
that occur as envelope `ret` codes: trim, empty converts to 0, optional
sign, decimal digits; anything else is NaN (`none`). -/
def jsStringToInt (s : String) : Option Int :=
  match (jsTrim s).toList with
  | [] => some 0
  | '-' :: rest => (decDigitsVal rest).map (fun n => -(n : Int))
  | '+' :: rest => (decDigitsVal rest).map (fun n => (n : Int))
  | cs => (decDigitsVal cs).map (fun n => (n : Int))

/-- JavaScript `Number(x)` on a `JsRet`; `none` models NaN.
`Number(undefined)` is NaN and `Number(null)` is 0. -/
def jsNumber : JsRet → Option Int
  | .vStr s => jsStringToInt s
  | .vNum n => some n
  | .vNull => some 0
  | .vUndef => none

/-- lodash `_.isFinite(Number(ret))`: the conversion produced a finite
number (the integer model has no infinities, so: produced a number at all). -/
def isFiniteNumber (r : JsRet) : Bool :=
  (jsNumber r).isSome

/-- Response envelope body destructured by `checkResult`. -/
structure Envelope where
  ret : JsRet
  errmsg : String
  data : String
deriving DecidableEq

/-- Outcome of `checkResult`: return `result.data` unchanged, return the
`data` field, or hand the body to `DreaminaErrorHandler.handleApiResponse`. -/
inductive CheckOutcome where
  | wholeBody (body : Envelope)
  | dataOut (d : String)
  | errorHandler (body : Envelope)
deriving DecidableEq

/-- Source transcription of `checkResult` (core.ts lines 464-474):
`if (!_.isFinite(Number(ret))) return result.data; if (ret === '0') return
data;` else the error handler. `===` is strict: only the string "0". -/
def checkResult (e : Envelope) : CheckOutcome :=
  if ¬ isFiniteNumber e.ret then .wholeBody e
  else if e.ret = .vStr "0" then .dataOut e.data
  else .errorHandler e

/-- Claim C3 counterexample: the claim says a numeric `ret` equal to 0 is
treated as success and yields `data`; in the code `ret === '0'` is a strict
string comparison, so the envelope with numeric `ret = 0` is routed to the
error handler and `data` is not returned. -/
theorem C3_checkResult_counterexample :
    checkResult ⟨JsRet.vNum 0, "", "payload"⟩ ≠ CheckOutcome.dataOut "payload" ∧
    checkResult ⟨JsRet.vNum 0, "", "payload"⟩ =
      CheckOutcome.errorHandler ⟨JsRet.vNum 0, "", "payload"⟩ := by
  decide

/-- Claim C3 (amended): `checkResult` returns the `data` field exactly when
`ret` is the literal string "0"; a `ret` whose `Number` conversion is NaN
returns the whole body unchanged; every other `ret` — the number 0
included — is routed to the error handler. -/
theorem C3_checkResult_amended (e : Envelope) :
    (checkResult e = CheckOutcome.dataOut e.data ↔ e.ret = JsRet.vStr "0") ∧
    (isFiniteNumber e.ret = false → checkResult e = CheckOutcome.wholeBody e) ∧
    (isFiniteNumber e.ret = true → e.ret ≠ JsRet.vStr "0" →
      checkResult e = CheckOutcome.errorHandler e) := by
  refine ⟨⟨fun h => ?_, fun h => ?_⟩, fun h => ?_, fun h hne => ?_⟩
  · unfold checkResult at h
    split_ifs at h with h1 h2 <;> simp_all
  · have hfin : isFiniteNumber (JsRet.vStr "0") = true := by decide
    simp [checkResult, h, hfin]
  · simp [checkResult, h]
  · simp [checkResult, h, hne]

/-- Witness for C3 (amended) at concrete envelopes: the string "0" yields
the data, a nonzero numeric ret reaches the error handler. -/
theorem C3_checkResult_amended_witness :
    checkResult ⟨JsRet.vStr "0", "", "d"⟩ = CheckOutcome.dataOut "d" ∧
    checkResult ⟨JsRet.vNum 5, "", "d"⟩ =
      CheckOutcome.errorHandler ⟨JsRet.vNum 5, "", "d"⟩ :=
  ⟨(C3_checkResult_amended ⟨JsRet.vStr "0", "", "d"⟩).1.mpr rfl,
   (C3_checkResult_amended ⟨JsRet.vNum 5, "", "d"⟩).2.2 (by decide) (by decide)⟩

/-! ## Signer payload hash (videos.ts `createSignature`, lines 53-65)

The SHA-256 primitive is an external cryptographic function; the embedding
is parameterized by it. -/

/-- Structural version of JavaScript `toUpperCase` (the library map does
not kernel-reduce). -/
def jsToUpper (s : String) : String :=
  String.mk (s.toList.map Char.toUpper)

/-- Headers the signer marks as significant before the payload-hash choice
(videos.ts lines 53-59): `x-amz-date`, plus `x-amz-security-token` when the
session token is supplied and truthy. -/
def signerBaseHeaders (timestamp : String) (sessionToken : Option String) :
    List (String × String) :=
  match sessionToken with
  | some tok =>
    if tok ≠ "" then [("x-amz-date", timestamp), ("x-amz-security-token", tok)]
    else [("x-amz-date", timestamp)]
  | none => [("x-amz-date", timestamp)]

/-- Source transcription of the payload-hash selection in `createSignature`
(videos.ts lines 61-65): the hash of the empty string, replaced by the hash
of the payload — also injected as the `x-amz-content-sha256` header —
exactly when the uppercased method is POST and the payload is non-empty
(truthy). Returns (payload hash, headers to sign). -/
def signerPayloadHash (sha256 : String → String) (method timestamp : String)
    (sessionToken : Option String) (payload : String) :
    String × List (String × String) :=
  if jsToUpper method = "POST" ∧ payload ≠ "" then
    (sha256 payload,
      signerBaseHeaders timestamp sessionToken ++
        [("x-amz-content-sha256", sha256 payload)])
  else
    (sha256 "", signerBaseHeaders timestamp sessionToken)

/-- Claim C9: the payload hash placed in the canonical request is the hash
of the empty string unless the method is the body-carrying method (POST, the
only body-carrying method this signer is used with) and a non-empty payload
is supplied, in which case it is the hash of the payload and that hash is
also added to the signed headers as `x-amz-content-sha256`. -/
theorem C9_signer_payload_hash (sha256 : String → String)
    (method timestamp : String) (sessionToken : Option String)
    (payload : String) :
    (jsToUpper method = "POST" ∧ payload ≠ "" →
      (signerPayloadHash sha256 method timestamp sessionToken payload).1 =
        sha256 payload ∧
      ("x-amz-content-sha256", sha256 payload) ∈
        (signerPayloadHash sha256 method timestamp sessionToken payload).2) ∧
    (¬ (jsToUpper method = "POST" ∧ payload ≠ "") →
      (signerPayloadHash sha256 method timestamp sessionToken payload).1 =
        sha256 "" ∧
      ∀ v, ("x-amz-content-sha256", v) ∉
        (signerPayloadHash sha256 method timestamp sessionToken payload).2) := by
  constructor
  · intro h
    simp [signerPayloadHash, if_pos h]
  · intro h
    refine ⟨by simp [signerPayloadHash, if_neg h], fun v hv => ?_⟩
    simp only [signerPayloadHash, if_neg h] at hv
    rcases sessionToken with _ | tok
    · rw [signerBaseHeaders, List.mem_singleton] at hv
      simpa using congrArg Prod.fst hv
    · by_cases htok : tok = ""
      · rw [signerBaseHeaders, if_neg (by simpa using htok), List.mem_singleton] at hv
        simpa using congrArg Prod.fst hv
      · rw [signerBaseHeaders, if_pos (by simpa using htok), List.mem_cons,
          List.mem_singleton] at hv
        rcases hv with hv | hv <;> simpa using congrArg Prod.fst hv

/-- Witness for C9: a POST with non-empty payload hashes the payload and
injects the content hash header; a GET hashes the empty string. -/
theorem C9_signer_payload_hash_witness :
    ((signerPayloadHash (fun s => String.append s "#h") "POST" "ts" none "p").1 =
        String.append "p" "#h" ∧
      ("x-amz-content-sha256", String.append "p" "#h") ∈
        (signerPayloadHash (fun s => String.append s "#h") "POST" "ts" none "p").2) ∧
    ((signerPayloadHash (fun s => String.append s "#h") "GET" "ts" none "").1 =
        String.append "" "#h" ∧
      ∀ v, ("x-amz-content-sha256", v) ∉
        (signerPayloadHash (fun s => String.append s "#h") "GET" "ts" none "").2) :=
  ⟨(C9_signer_payload_hash (fun s => String.append s "#h") "POST" "ts" none "p").1
      ⟨by decide, by decide⟩,
   (C9_signer_payload_hash (fun s => String.append s "#h") "GET" "ts" none "").2
      (fun h => absurd h.1 (by decide))⟩

/-! ## Canonical query string (videos.ts `createSignature`, lines 37-51) -/

/-- Structural lexicographic strict comparison of character lists: the
semantics of the JavaScript `<` comparison the sort comparator performs on
the parameter names. -/
def charListLt : List Char → List Char → Bool
  | [], [] => false
  | [], _ :: _ => true
  | _ :: _, [] => false
  | a :: as, b :: bs => if a = b then charListLt as bs else decide (a < b)

/-- JavaScript string comparison `a < b`. -/
def strLt (a b : String) : Bool :=
  charListLt a.toList b.toList

/-- The ordering realized by the comparator of videos.ts lines 43-47
(`a < b` gives -1, `a > b` gives 1, otherwise 0): the pair `a` may stay
before `b` exactly when `b < a` fails. -/
def strLe (a b : String) : Bool :=
  ! strLt b a

/-- Strip a leading `?`, as `URLSearchParams` does with `url.search`. -/
def queryBody (search : String) : List Char :=
  match search.toList with
  | '?' :: rest => rest
  | l => l

/-- Structural split of a character list at a separator character. -/
def splitChars (sep : Char) : List Char → List (List Char)
  | [] => [[]]
  | c :: cs =>
    if c = sep then [] :: splitChars sep cs
    else
      match splitChars sep cs with
      | [] => [[c]]
      | r :: rs => (c :: r) :: rs

/-- One `key=value` segment: the key is the part before the first `=`, the
value everything after it. -/
def splitQueryPair (seg : List Char) : String × String :=
  match splitChars '=' seg with
  | [] => ("", "")
  | k :: rest => (String.mk k, String.intercalate "=" (rest.map String.mk))

/-- The query pairs in original order, as `URLSearchParams.forEach` yields
them into `queryParams` (videos.ts lines 37-41); percent-decoding aside,
which the canonicalization claim does not involve. -/
def parseQueryPairs (search : String) : List (String × String) :=
  ((splitChars '&' (queryBody search)).filter (fun seg => seg ≠ [])).map
    splitQueryPair

/-- The comparator sort of videos.ts lines 43-47; JavaScript `sort` is
stable, modelled by a stable insertion sort. -/
def sortQueryPairs (l : List (String × String)) : List (String × String) :=
  List.insertionSort (fun p q => strLe p.1 q.1 = true) l

/-- The canonical query string (videos.ts lines 49-51): sorted pairs
rejoined as `key=value`, joined with `&`. -/
def canonicalQueryString (search : String) : String :=
  String.intercalate "&"
    ((sortQueryPairs (parseQueryPairs search)).map (fun p => p.1 ++ "=" ++ p.2))

/-- The structural comparison agrees with the lexicographic order on
character lists. -/
theorem charListLt_iff (as bs : List Char) : charListLt as bs = true ↔ as < bs := by
  induction as generalizing bs with
  | nil =>
    cases bs with
    | nil =>
      show false = true ↔ ([] : List Char) < []
      constructor
      · intro h
        exact absurd h (by decide)
      · intro h
        cases h
    | cons b bs =>
      show true = true ↔ ([] : List Char) < b :: bs
      simp only [true_iff]
      exact List.nil_lt_cons b bs
  | cons a as ih =>
    cases bs with
    | nil =>
      show false = true ↔ a :: as < []
      constructor
      · intro h
        exact absurd h (by decide)
      · intro h
        cases h
    | cons b bs =>
      show (if a = b then charListLt as bs else decide (a < b)) = true ↔
        a :: as < b :: bs
      by_cases hab : a = b
      · subst hab
        rw [if_pos rfl, ih]
        constructor
        · exact fun h => List.Lex.cons h
        · intro h
          cases h with
          | cons h => exact h
          | rel h => exact absurd h (lt_irrefl a)
      · rw [if_neg hab, decide_eq_true_eq]
        constructor
        · exact fun h => List.Lex.rel h
        · intro h
          cases h with
          | cons h => exact absurd rfl hab
          | rel h => exact h

/-- The comparator ordering agrees with the standard lexicographic order on
strings. -/
theorem strLe_iff (a b : String) : strLe a b = true ↔ a ≤ b := by
  rw [String.le_iff_toList_le, ← not_lt, ← charListLt_iff]
  simp [strLe, strLt]

/-- Claim C8: the canonical query pairs are sorted lexicographically by
parameter name, are a permutation of the parsed pairs, keep pairs with
equal keys in their original relative order (stability), and the query
`b=2&a=1` canonicalizes to `a=1&b=2`. -/
theorem C8_canonical_query_sorted (search k : String) :
    List.Sorted (fun p q : String × String => p.1 ≤ q.1)
      (sortQueryPairs (parseQueryPairs search)) ∧
    (sortQueryPairs (parseQueryPairs search)).Perm (parseQueryPairs search) ∧
    (sortQueryPairs (parseQueryPairs search)).filter (fun p => p.1 == k) =
      (parseQueryPairs search).filter (fun p => p.1 == k) ∧
    canonicalQueryString "b=2&a=1" = "a=1&b=2" := by
  haveI instTot : IsTotal (String × String) (fun p q => strLe p.1 q.1 = true) :=
    ⟨fun p q => by
      rcases le_total p.1 q.1 with h | h
      · exact Or.inl ((strLe_iff _ _).mpr h)
      · exact Or.inr ((strLe_iff _ _).mpr h)⟩
  haveI instTr : IsTrans (String × String) (fun p q => strLe p.1 q.1 = true) :=
    ⟨fun p q r hpq hqr =>
      (strLe_iff _ _).mpr
        (le_trans ((strLe_iff _ _).mp hpq) ((strLe_iff _ _).mp hqr))⟩
  refine ⟨?_, List.perm_insertionSort _ _, ?_, by decide⟩
  · exact
      (List.sorted_insertionSort _ (parseQueryPairs search)).imp
        fun h => (strLe_iff _ _).mp h
  · have hfil_sub :
        List.Sublist ((parseQueryPairs search).filter (fun p => p.1 == k))
          (parseQueryPairs search) := List.filter_sublist _
    have hpair :
        ((parseQueryPairs search).filter (fun p => p.1 == k)).Pairwise
          (fun p q => strLe p.1 q.1 = true) := by
      apply List.pairwise_of_forall_mem_list
      intro a ha b hb
      have ha' : a.1 = k := by simpa using List.of_mem_filter ha
      have hb' : b.1 = k := by simpa using List.of_mem_filter hb
      exact (strLe_iff _ _).mpr (le_of_eq (ha'.trans hb'.symm))
    have hsub2 := List.sublist_insertionSort hpair hfil_sub
    have hfil2 := List.Sublist.filter (fun p : String × String => p.1 == k) hsub2
    have hc_eq :
        ((parseQueryPairs search).filter (fun p => p.1 == k)).filter
            (fun p => p.1 == k) =
          (parseQueryPairs search).filter (fun p => p.1 == k) := by
      simp [List.filter_filter]
    rw [hc_eq] at hfil2
    have hperm :
        ((sortQueryPairs (parseQueryPairs search)).filter
            (fun p => p.1 == k)).Perm
          ((parseQueryPairs search).filter (fun p => p.1 == k)) :=
      List.Perm.filter _ (List.perm_insertionSort _ _)
    exact ((List.Sublist.length_eq hfil2).mp hperm.length_eq.symm).symm

/-! ## Resilient request client (core.ts `request`, lines 196-312) -/

/-- `RETRY_CONFIG.MAX_RETRY_COUNT` (common.ts lines 63-66). -/
def MAX_RETRY_COUNT : Nat := 3

/-- Outcome of one axios attempt: the promise resolves with an HTTP status
and an envelope body (`validateStatus` accepts every status), or rejects
with an error; a rejected attempt is transient when its code or message
matches the timeout/network checks of core.ts lines 286-288. -/
inductive AttemptOutcome where
  | resolved (status : Nat) (body : Envelope)
  | rejected (transient : Bool) (detail : String)

/-- Result of `request`: a returned value (the `checkResult` outcome), a
thrown error carrying the diagnostic detail of the last caught attempt, or
the defensive generic error of core.ts lines 306-310. The streaming mode
(`responseType == "stream"`, line 263) returns the raw response before any
envelope handling and is outside these claims. -/
inductive RequestResult where
  | returned (out : CheckOutcome)
  | thrown (detail : String)
  | thrownGeneric
deriving DecidableEq

/-- The while loop of core.ts lines 241-296 plus the post-loop throw of
lines 299-311. `transport` gives each attempt's outcome by attempt index;
`retries` is the loop counter; `attempts` counts axios calls made so far
and is also the next attempt's index; `fuel` (maintained as
`MAX_RETRY_COUNT + 1 - retries`) bounds the recursion structurally. Both
retry paths (HTTP status >= 400, lines 271-277, and transient rejection,
lines 286-291) are guarded by `retries < maxRetries`; a non-transient
rejection, or a transient one with retries exhausted, breaks out and
rethrows the last error. A resolved attempt otherwise goes to
`checkResult` (line 279). -/
def requestLoop (transport : Nat → AttemptOutcome) :
    Nat → Nat → Nat → RequestResult × Nat
  | 0, _, attempts => (.thrownGeneric, attempts)
  | fuel + 1, retries, attempts =>
    match transport attempts with
    | .resolved status body =>
      if 400 ≤ status ∧ retries < MAX_RETRY_COUNT then
        requestLoop transport fuel (retries + 1) (attempts + 1)
      else
        (.returned (checkResult body), attempts + 1)
    | .rejected transient detail =>
      if transient = true ∧ retries < MAX_RETRY_COUNT then
        requestLoop transport fuel (retries + 1) (attempts + 1)
      else
        (.thrown detail, attempts + 1)

/-- `request` run against a transport: result plus number of attempts. -/
def requestModel (transport : Nat → AttemptOutcome) : RequestResult × Nat :=
  requestLoop transport (MAX_RETRY_COUNT + 1) 0 0

theorem requestLoop_attempts_le (transport : Nat → AttemptOutcome) :
    ∀ fuel retries attempts,
      (requestLoop transport fuel retries attempts).2 ≤ attempts + fuel := by
  intro fuel
  induction fuel with
  | zero => intro retries attempts; simp [requestLoop]
  | succ fuel ih =>
    intro retries attempts
    rw [requestLoop]
    rcases transport attempts with ⟨status, body⟩ | ⟨transient, detail⟩ <;>
      dsimp only <;> split_ifs <;>
        first
          | (exact le_trans (ih _ _) (by omega))
          | (dsimp only; omega)

/-- Claim C2: against a transport that always fails transiently, `request`
makes exactly `maxRetries + 1` attempts (`RETRY_CONFIG.MAX_RETRY_COUNT = 3`,
so 4) and then throws an error carrying the last attempt's diagnostic
detail; and for any transport whatsoever it never makes more than
`maxRetries + 1` attempts. -/
theorem C2_request_attempt_bound (transport : Nat → AttemptOutcome)
    (detail : Nat → String)
    (halways : ∀ n, transport n = AttemptOutcome.rejected true (detail n)) :
    requestModel transport =
      (RequestResult.thrown (detail MAX_RETRY_COUNT), MAX_RETRY_COUNT + 1) ∧
    ∀ t : Nat → AttemptOutcome, (requestModel t).2 ≤ MAX_RETRY_COUNT + 1 := by
  constructor
  · simp [requestModel, requestLoop, halways, MAX_RETRY_COUNT]
  · intro t
    simpa using requestLoop_attempts_le t (MAX_RETRY_COUNT + 1) 0 0

/-- Witness for C2 at a concrete always-timeout transport. -/
theorem C2_request_attempt_bound_witness :
    requestModel (fun _ => AttemptOutcome.rejected true "timeout") =
      (RequestResult.thrown "timeout", MAX_RETRY_COUNT + 1) ∧
    ∀ t : Nat → AttemptOutcome, (requestModel t).2 ≤ MAX_RETRY_COUNT + 1 :=
  C2_request_attempt_bound (fun _ => AttemptOutcome.rejected true "timeout")
    (fun _ => "timeout") (fun _ => rfl)

/-! ## Upload pipeline (videos.ts `uploadImageForVideo`, lines 123-318;
`uploadImageFromUrl` in the images controller, part_000 lines 565-787, is
the same pipeline with the same step structure) -/

/-- Fields of the `get_upload_token` response destructured at line 133. -/
structure TokenResult where
  access_key_id : String
  secret_access_key : String
  session_token : String
  service_id : String
deriving DecidableEq

/-- One `StoreInfos` entry of the apply response (lines 205-210). -/
structure StoreInfo where
  StoreUri : String
  Auth : String
deriving DecidableEq

/-- `Result.UploadAddress` of the apply response (lines 200-206). -/
structure UploadAddress where
  StoreInfos : List StoreInfo
  UploadHosts : List String
  SessionKey : String
deriving DecidableEq

/-- The parsed apply response: the nested `ResponseMetadata.Error` object
(serialized), if present, and the upload address, if present. -/
structure ApplyResult where
  metaError : Option String
  uploadAddress : Option UploadAddress
deriving DecidableEq

/-- One `Result.Results` entry of the commit response (lines 298-303). -/
structure CommitEntry where
  Uri : String
  UriStatus : Int
deriving DecidableEq

/-- One `Result.PluginResult` entry of the commit response (lines 305-309). -/
structure PluginEntry where
  ImageUri : String
deriving DecidableEq

/-- The parsed commit response. -/
structure CommitResult where
  metaError : Option String
  results : List CommitEntry
  plugin : List PluginEntry
deriving DecidableEq

/-- Environment of one pipeline run: what each external call would yield
were it issued. `tokenResult = none` models the token request throwing. -/
structure UploadEnv where
  tokenResult : Option TokenResult
  imageFetchOk : Bool
  applyOk : Bool
  applyResult : ApplyResult
  uploadOk : Bool
  commitOk : Bool
  commitResult : CommitResult
deriving DecidableEq

/-- The five external calls of the pipeline, in source order. -/
inductive UploadStep where
  | getToken
  | downloadImage
  | applyUpload
  | rawUpload
  | commitUpload
deriving DecidableEq

/-- The full pipeline order. -/
def uploadStepOrder : List UploadStep :=
  [.getToken, .downloadImage, .applyUpload, .rawUpload, .commitUpload]

/-- Source transcription of `uploadImageForVideo`: sequential steps, each
returning an error (a thrown exception) without issuing any later call.
The trace records the external calls issued. JavaScript truthiness checks
on token fields (line 134) are emptiness checks; an empty `StoreInfos`
array passes the truthiness check of line 201 (arrays are truthy) and the
subsequent `storeInfo.Auth` access throws a TypeError before the raw
upload; a missing `UploadHosts` entry still issues the raw upload against
host "undefined" (string interpolation), so the head is defaulted. -/
def uploadImageForVideo (env : UploadEnv) :
    Except String String × List UploadStep :=
  match env.tokenResult with
  | none => (.error "token request failed", [.getToken])
  | some tok =>
    if tok.access_key_id = "" ∨ tok.secret_access_key = "" ∨
        tok.session_token = "" then
      (.error "upload token missing", [.getToken])
    else if ¬ env.imageFetchOk then
      (.error "image download failed", [.getToken, .downloadImage])
    else if ¬ env.applyOk then
      (.error "apply http failure",
        [.getToken, .downloadImage, .applyUpload])
    else
      match env.applyResult.metaError with
      | some e =>
        (.error (String.append "apply returned error: " e),
          [.getToken, .downloadImage, .applyUpload])
      | none =>
        match env.applyResult.uploadAddress with
        | none =>
          (.error "upload address missing",
            [.getToken, .downloadImage, .applyUpload])
        | some ua =>
          match ua.StoreInfos with
          | [] =>
            (.error "TypeError: cannot read Auth of undefined",
              [.getToken, .downloadImage, .applyUpload])
          | si :: _ =>
            if ¬ env.uploadOk then
              (.error "raw upload failed",
                [.getToken, .downloadImage, .applyUpload, .rawUpload])
            else if ¬ env.commitOk then
              (.error "commit http failure", uploadStepOrder)
            else
              match env.commitResult.metaError with
              | some e =>
                (.error (String.append "commit returned error: " e),
                  uploadStepOrder)
              | none =>
                match env.commitResult.results with
                | [] => (.error "commit response missing results",
                    uploadStepOrder)
                | r :: _ =>
                  if r.UriStatus ≠ 2000 then
                    (.error "UriStatus not 2000", uploadStepOrder)
                  else
                    match env.commitResult.plugin with
                    | p :: _ =>
                      if p.ImageUri ≠ "" then (.ok p.ImageUri, uploadStepOrder)
                      else (.ok r.Uri, uploadStepOrder)
                    | [] => (.ok r.Uri, uploadStepOrder)

/-- Whether the pipeline returned an image URI. -/
def uploadIsOk : Except String String → Bool
  | .ok _ => true
  | .error _ => false

/-- Claim C5: an apply response carrying a nested `ResponseMetadata.Error`
makes the pipeline raise without ever issuing the step-3 raw-bytes upload;
and in general the issued-call trace is always a prefix of the pipeline
order (failure of any step prevents all later steps), with the full order
reached exactly on success. -/
theorem C5_upload_no_partial_success (env : UploadEnv) :
    (∀ e, env.applyResult.metaError = some e →
      uploadIsOk (uploadImageForVideo env).1 = false ∧
      UploadStep.rawUpload ∉ (uploadImageForVideo env).2) ∧
    (∃ n, (uploadImageForVideo env).2 = uploadStepOrder.take n) ∧
    (∀ uri, (uploadImageForVideo env).1 = Except.ok uri →
      (uploadImageForVideo env).2 = uploadStepOrder) := by
  refine ⟨fun e he => ?_, ?_, fun uri huri => ?_⟩
  · unfold uploadImageForVideo
    repeat' split
    all_goals simp_all [uploadIsOk]
  · unfold uploadImageForVideo
    repeat' split
    all_goals
      first
        | exact ⟨1, rfl⟩
        | exact ⟨2, rfl⟩
        | exact ⟨3, rfl⟩
        | exact ⟨4, rfl⟩
        | exact ⟨5, rfl⟩
  · unfold uploadImageForVideo at huri ⊢
    repeat' split
    all_goals simp_all

/-- Witness for C5 at a concrete environment whose apply step reports a
nested error object. -/
theorem C5_upload_no_partial_success_witness :
    (uploadIsOk (uploadImageForVideo
        ⟨some ⟨"ak", "sk", "st", "sid"⟩, true, true,
         ⟨some "AccessDenied", none⟩, true, true, ⟨none, [], []⟩⟩).1 = false ∧
      UploadStep.rawUpload ∉ (uploadImageForVideo
        ⟨some ⟨"ak", "sk", "st", "sid"⟩, true, true,
         ⟨some "AccessDenied", none⟩, true, true, ⟨none, [], []⟩⟩).2) ∧
    (∃ n, (uploadImageForVideo
        ⟨some ⟨"ak", "sk", "st", "sid"⟩, true, true,
         ⟨some "AccessDenied", none⟩, true, true, ⟨none, [], []⟩⟩).2 =
      uploadStepOrder.take n) :=
  ⟨(C5_upload_no_partial_success _).1 "AccessDenied" rfl,
   (C5_upload_no_partial_success _).2.1⟩

/-! ## Frame uploads in `generateVideo` (videos.ts lines 351-429) -/

/-- Exception raised by the frame-upload phase before job submission. -/
inductive FrameError where
  | firstFrameFailed (msg : String)
  | allUploadsFailed
deriving DecidableEq

/-- The upload loop of lines 358-385: iterate over `filePaths` with index
`i`, skip empty paths, push truthy uris, swallow a falsy uri with only a
log line; a thrown upload at index 0 is fatal (lines 378-380), a thrown
upload at any later index is skipped (lines 381-383). -/
def collectUploadIDs (upload : String → Except String String) :
    List String → Nat → Except FrameError (List String)
  | [], _ => .ok []
  | p :: rest, i =>
    if p = "" then collectUploadIDs upload rest (i + 1)
    else
      match upload p with
      | .ok uri =>
        match collectUploadIDs upload rest (i + 1) with
        | .ok uris => .ok (if uri ≠ "" then uri :: uris else uris)
        | .error e => .error e
      | .error msg =>
        if i = 0 then .error (.firstFrameFailed msg)
        else collectUploadIDs upload rest (i + 1)

/-- Result of `generateVideo` up to the job-submission request of line 444:
either an exception raised before any submission, or the job submitted with
the given `first_frame_image` / `end_frame_image` uris. -/
inductive FramePhase where
  | raised (e : FrameError)
  | submitted (first_frame_image : Option String)
      (end_frame_image : Option String)
deriving DecidableEq

/-- The frame phase of `generateVideo` (lines 351-429): no paths means a
text-only job; otherwise collect uploads, raise when none succeeded
(lines 389-392), then populate `first_frame_image` from `uploadIDs[0]` and
`end_frame_image` from `uploadIDs[1]` when truthy (lines 394-426). -/
def generateVideoFrames (filePaths : List String)
    (upload : String → Except String String) : FramePhase :=
  if filePaths = [] then .submitted none none
  else
    match collectUploadIDs upload filePaths 0 with
    | .error e => .raised e
    | .ok uploadIDs =>
      if uploadIDs = [] then .raised .allUploadsFailed
      else
        .submitted
          (match uploadIDs[0]? with
           | some u => if u ≠ "" then some u else none
           | none => none)
          (match uploadIDs[1]? with
           | some u => if u ≠ "" then some u else none
           | none => none)

/-- Claim C6: with two frame paths where the first upload succeeds and the
second throws, `generateVideo` does not raise — the job is submitted with
`first_frame_image` populated and `end_frame_image` absent; with a first
upload that throws, it raises the typed first-frame failure before any job
submission (`.raised` is produced before the model ever reaches the
`.submitted` constructor that stands for the line-444 request). -/
theorem C6_end_frame_soft_failure (p1 p2 u1 em : String)
    (upload : String → Except String String)
    (hp1 : p1 ≠ "") (hp2 : p2 ≠ "")
    (h1 : upload p1 = Except.ok u1) (hu1 : u1 ≠ "")
    (h2 : upload p2 = Except.error em) :
    generateVideoFrames [p1, p2] upload = .submitted (some u1) none ∧
    ∀ (q1 q2 e : String) (upl : String → Except String String), q1 ≠ "" →
      upl q1 = Except.error e →
      generateVideoFrames [q1, q2] upl = .raised (.firstFrameFailed e) := by
  constructor
  · simp [generateVideoFrames, collectUploadIDs, hp1, hp2, h1, h2, hu1]
  · intro q1 q2 e upl hq1 he
    simp [generateVideoFrames, collectUploadIDs, hq1, he]

/-- Witness for C6 at a concrete two-path upload where the second throws. -/
theorem C6_end_frame_soft_failure_witness :
    generateVideoFrames ["a.png", "b.png"]
        (fun p => if p = "a.png" then Except.ok "uri-a" else Except.error "boom") =
      FramePhase.submitted (some "uri-a") none ∧
    ∀ (q1 q2 e : String) (upl : String → Except String String), q1 ≠ "" →
      upl q1 = Except.error e →
      generateVideoFrames [q1, q2] upl = .raised (.firstFrameFailed e) :=
  C6_end_frame_soft_failure "a.png" "b.png" "uri-a" "boom"
    (fun p => if p = "a.png" then Except.ok "uri-a" else Except.error "boom")
    (by decide) (by decide) rfl (by decide) rfl

/-! ## Video polling loop (videos.ts `generateVideo`, lines 535-674)

Each cycle of the `while (status === 20 && retryCount < maxRetries)` loop
issues one status request inside a `try` whose `catch` (lines 639-643)
increments `retryCount`. A serialized body matching the vlabvod URL regex
returns immediately (lines 566-570, 579-583). Otherwise the record is
selected (lines 589-604): `history_records[0]` when the alternative API was
used and non-empty, else `history_list[0]`, else a soft miss that
increments `retryCount` and continues. A found record updates
`status`/`failCode`/`item_list` (lines 609-611); a FAILED record throws at
line 631 — inside the same `try`, so its own `catch` swallows the
exception and increments `retryCount`; a PENDING record only waits (lines
634-638) and does not touch `retryCount`. -/

/-- Video url fields of one `item_list` entry, in extraction precedence
order (lines 653-671); a JavaScript-falsy (absent or empty) url is `none`. -/
structure VideoInfo where
  transcodedOriginUrl : Option String
  playUrl : Option String
  downloadUrl : Option String
  url : Option String
deriving DecidableEq

/-- One history record as the loop reads it (lines 609-611). -/
structure HistoryRecord where
  status : Int
  fail_code : Option String
  item_list : List VideoInfo
deriving DecidableEq

/-- One poll cycle's observable response: the request may throw
(`transportError`); otherwise the serialized body may contain a vlabvod
video URL (the regex of lines 566/579), and carries the `history_records`
and `history_list` arrays the record selection reads. -/
inductive PollResponse where
  | transportError
  | ok (bodyVideoUrl : Option String) (history_records : List HistoryRecord)
      (history_list : List HistoryRecord)
deriving DecidableEq

/-- Mutable loop state (lines 535-537). -/
structure PollState where
  status : Int
  failCode : Option String
  item_list : List VideoInfo
  retryCount : Nat
deriving DecidableEq

/-- Initial state: `status = 20`, no fail code, empty item list, zero
retries (lines 535-536). -/
def initPollState : PollState :=
  ⟨20, none, [], 0⟩

/-- `maxRetries` of the video polling loop (line 537). -/
def maxRetries : Nat := 60

/-- The video-URL extraction of lines 653-671: transcoded origin url, else
play url, else download url, else the plain url field, of the first item. -/
def extractVideoUrl (items : List VideoInfo) : Option String :=
  match items with
  | [] => none
  | v :: _ =>
    match v.transcodedOriginUrl with
    | some u => some u
    | none =>
      match v.playUrl with
      | some u => some u
      | none =>
        match v.downloadUrl with
        | some u => some u
        | none => v.url

/-- Terminal outcome of the polling section of `generateVideo`: a returned
video URL (line 569, 582 or 674), the timeout exception of lines 646-651,
or the no-video-URL exception of lines 666-670. The FAILED exceptions
built at lines 627-629 cannot escape the loop (they are caught at line
639), so no outcome constructor exists for them. -/
inductive VideoOutcome where
  | url (u : String)
  | timedOut
  | noVideoUrl
deriving DecidableEq

/-- One iteration body (lines 546-643) on a live state: either the next
state (`inl`) or an early return (`inr`). -/
def pollStep (st : PollState) (r : PollResponse) : PollState ⊕ VideoOutcome :=
  match r with
  | .transportError => .inl { st with retryCount := st.retryCount + 1 }
  | .ok bodyVideoUrl history_records history_list =>
    match bodyVideoUrl with
    | some u => .inr (.url u)
    | none =>
      let useAlternativeApi := st.retryCount > 10 ∧ st.retryCount % 2 = 0
      match
        if useAlternativeApi ∧ history_records ≠ [] then history_records.head?
        else history_list.head? with
      | none => .inl { st with retryCount := st.retryCount + 1 }
      | some rec =>
        if rec.status = 30 then
          .inl { status := rec.status, failCode := rec.fail_code,
                 item_list := rec.item_list,
                 retryCount := st.retryCount + 1 }
        else
          .inl { status := rec.status, failCode := rec.fail_code,
                 item_list := rec.item_list, retryCount := st.retryCount }

/-- The after-loop section (lines 646-674). -/
def finishPoll (st : PollState) : VideoOutcome :=
  if st.retryCount ≥ maxRetries ∧ st.status = 20 then .timedOut
  else
    match extractVideoUrl st.item_list with
    | some u => .url u
    | none => .noVideoUrl

/-- The `while` loop of line 545 driven by a response stream; `i` indexes
the stream, `fuel` bounds the unrolling; `none` means the loop is still
live after `fuel` cycles. -/
def runPoll (stream : Nat → PollResponse) :
    Nat → Nat → PollState → Option VideoOutcome
  | 0, _, st =>
    if st.status = 20 ∧ st.retryCount < maxRetries then none
    else some (finishPoll st)
  | fuel + 1, i, st =>
    if st.status = 20 ∧ st.retryCount < maxRetries then
      match pollStep st (stream i) with
      | .inr out => some out
      | .inl st' => runPoll stream fuel (i + 1) st'
    else some (finishPoll st)

/-- Claim C1 counterexample: a status-response sequence that reports a
PENDING (20) record on every cycle. The claim says the loop performs at
most `maxRetries = 60` poll cycles and raises TimedOut exactly at 60; in
the code a cycle that finds a PENDING record does not increment
`retryCount` (only soft misses and caught errors do, lines 599/641), so
after 61 full cycles the loop is still live (`none`) — it has neither
stopped nor raised TimedOut, and never will on this sequence. -/
theorem C1_poll_pending_counterexample :
    runPoll (fun _ => PollResponse.ok none [] [⟨20, none, []⟩]) 61 0
      initPollState = none := by
  decide

theorem runPoll_succ (stream : Nat → PollResponse) (fuel i : Nat)
    (st : PollState) (hlive : st.status = 20 ∧ st.retryCount < maxRetries) :
    runPoll stream (fuel + 1) i st =
      match pollStep st (stream i) with
      | .inr out => some out
      | .inl st' => runPoll stream fuel (i + 1) st' := by
  rw [runPoll, if_pos hlive]

theorem runPoll_all_miss (stream : Nat → PollResponse)
    (hmiss : ∀ i, stream i = PollResponse.ok none [] []) :
    ∀ f i fc il rc, rc ≤ maxRetries →
      runPoll stream f i ⟨20, fc, il, rc⟩ =
        if f + rc < maxRetries then none else some VideoOutcome.timedOut := by
  intro f
  induction f with
  | zero =>
    intro i fc il rc hrc
    rcases Nat.lt_or_ge rc maxRetries with h | h
    · simp [runPoll, h]
    · simp [runPoll, finishPoll, h, Nat.not_lt.mpr h]
  | succ f ih =>
    intro i fc il rc hrc
    rcases Nat.lt_or_ge rc maxRetries with h | h
    · rw [runPoll_succ stream f i _ ⟨rfl, h⟩, hmiss i]
      simp only [pollStep]
      have hred :
          (match
              (if ((rc > 10 ∧ rc % 2 = 0) ∧ ([] : List HistoryRecord) ≠ [])
                then ([] : List HistoryRecord).head?
                else ([] : List HistoryRecord).head?) with
            | none =>
              Sum.inl (β := VideoOutcome)
                (⟨20, fc, il, rc + 1⟩ : PollState)
            | some rec =>
              if rec.status = 30 then
                Sum.inl ⟨rec.status, rec.fail_code, rec.item_list, rc + 1⟩
              else
                Sum.inl ⟨rec.status, rec.fail_code, rec.item_list, rc⟩) =
            Sum.inl (⟨20, fc, il, rc + 1⟩ : PollState) := by
        simp
      rw [hred]
      show runPoll stream f (i + 1) ⟨20, fc, il, rc + 1⟩ =
        if f + 1 + rc < maxRetries then none else some VideoOutcome.timedOut
      rw [ih (i + 1) fc il (rc + 1) (by omega)]
      have harith : f + (rc + 1) = f + 1 + rc := by omega
      rw [harith]
    · have hcond : ¬((20 : Int) = 20 ∧ rc < maxRetries) := fun hc =>
        Nat.not_lt.mpr h hc.2
      rw [runPoll, if_neg hcond]
      have hge : ¬ (f + 1 + rc < maxRetries) := by omega
      simp [finishPoll, h, hge]

/-- Claim C1 (amended): for a response sequence in which every cycle is a
soft miss (no record for the history id), the loop performs exactly
`maxRetries = 60` poll cycles and then raises TimedOut — with less fuel it
is still running, never having raised earlier. A cycle that finds a record
with a terminal status ends the loop at that cycle (here: a first-cycle
terminal record ends polling after one cycle, with the after-loop
extraction applied to the record). A cycle that finds a PENDING record
does not advance the attempt counter, so an always-PENDING-record sequence
polls without ever timing out (see the counterexample). -/
theorem C1_poll_timeout_amended (stream : Nat → PollResponse)
    (hmiss : ∀ i, stream i = PollResponse.ok none [] []) :
    (runPoll stream maxRetries 0 initPollState = some VideoOutcome.timedOut ∧
      ∀ f, f < maxRetries → runPoll stream f 0 initPollState = none) ∧
    ∀ (stream2 : Nat → PollResponse) (rec : HistoryRecord),
      stream2 0 = PollResponse.ok none [] [rec] →
      rec.status ≠ 20 → rec.status ≠ 30 →
      runPoll stream2 1 0 initPollState =
        some (finishPoll ⟨rec.status, rec.fail_code, rec.item_list, 0⟩) := by
  constructor
  · constructor
    · rw [show initPollState = ⟨20, none, [], 0⟩ from rfl,
        runPoll_all_miss stream hmiss maxRetries 0 none [] 0 (by omega)]
      simp
    · intro f hf
      rw [show initPollState = (⟨20, none, [], 0⟩ : PollState) from rfl,
        runPoll_all_miss stream hmiss f 0 none [] 0 (by omega)]
      simp [hf]
  · intro stream2 rec h0 h20 h30
    show runPoll stream2 (0 + 1) 0 initPollState = _
    rw [runPoll_succ stream2 0 0 initPollState (by exact ⟨rfl, by decide⟩), h0]
    simp [pollStep, initPollState, h30]
    rw [runPoll]
    rw [if_neg (fun hc => h20 hc.1)]

/-- Witness for C1 (amended) at the concrete all-soft-miss sequence and a
concrete first-cycle SUCCEEDED (10) record carrying one video URL. -/
theorem C1_poll_timeout_amended_witness :
    (runPoll (fun _ => PollResponse.ok none [] []) maxRetries 0 initPollState =
        some VideoOutcome.timedOut ∧
      runPoll (fun _ => PollResponse.ok none [] []) 59 0 initPollState = none) ∧
    runPoll (fun _ => PollResponse.ok none []
        [⟨10, none, [⟨some "vurl", none, none, none⟩]⟩]) 1 0 initPollState =
      some (VideoOutcome.url "vurl") :=
  ⟨⟨(C1_poll_timeout_amended (fun _ => PollResponse.ok none [] [])
        (fun _ => rfl)).1.1,
    (C1_poll_timeout_amended (fun _ => PollResponse.ok none [] [])
        (fun _ => rfl)).1.2 59 (by decide)⟩,
   (C1_poll_timeout_amended (fun _ => PollResponse.ok none [] [])
        (fun _ => rfl)).2
      (fun _ => PollResponse.ok none []
        [⟨10, none, [⟨some "vurl", none, none, none⟩]⟩])
      ⟨10, none, [⟨some "vurl", none, none, none⟩]⟩ rfl (by decide) (by decide)⟩

/-! ## FAILED handling (videos.ts lines 626-632; part_000 lines 1003-1008) -/

/-- Typed failures of the post-loop FAILED check in
`generateImageComposition` (part_000 lines 1003-1008):
`EX.API_CONTENT_FILTERED` for fail code 2038,
`EX.API_IMAGE_GENERATION_FAILED` carrying the code otherwise. -/
inductive CompFailure where
  | contentFiltered
  | genFailed (failCode : Option String)
deriving DecidableEq

/-- Source transcription of part_000 lines 1003-1008. -/
def compositionFailOutcome (status : Int) (failCode : Option String) :
    Option CompFailure :=
  if status = 30 then
    if failCode = some "2038" then some .contentFiltered
    else some (.genFailed failCode)
  else none

/-- Claim C4, video side (code bug): a first-cycle FAILED (30) record with
fail code 2038 and empty item list makes `generateVideo` raise the generic
no-video-URL error, not ContentFiltered — the ContentFiltered exception
built at line 628 is thrown inside the loop's own `try` and swallowed by
the `catch` of line 639; and a FAILED record whose `item_list` still
carries a playable URL even makes `generateVideo` return that URL as a
success. The composition controller (part_000 lines 1003-1008) behaves as
the claim states: 2038 gives ContentFiltered, any other code gives the
generic failure carrying the code. -/
theorem C4_failed_handling :
    runPoll (fun _ => PollResponse.ok none [] [⟨30, some "2038", []⟩]) 1 0
        initPollState = some VideoOutcome.noVideoUrl ∧
    runPoll (fun _ => PollResponse.ok none []
        [⟨30, some "2038", [⟨none, some "stale", none, none⟩]⟩]) 1 0
        initPollState = some (VideoOutcome.url "stale") ∧
    compositionFailOutcome 30 (some "2038") = some CompFailure.contentFiltered ∧
    compositionFailOutcome 30 (some "999") =
      some (CompFailure.genFailed (some "999")) ∧
    compositionFailOutcome 30 none = some (CompFailure.genFailed none) := by
  decide

end Dreamina
